import Mathlib

/-!
# PulseTempo authentication core — a shallow embedding

This file embeds the authentication and token-lifecycle subsystem of the
PulseTempo backend (`backend/app/core/security.py`,
`backend/app/core/apple_auth.py`, `backend/app/crud/crud_user.py`,
`backend/app/routers/auth.py`) into Lean and proves the spec's claims
about it.

Modelling conventions:
* Python `str` values that undergo byte-level operations (passwords) are
  modelled as lists of Unicode scalar values (`List Nat`); `bytes` values
  are lists of byte values (`List Nat`, each `< 256`).  Other strings
  (emails, usernames, ids, token claims) stay `String`.
* The bcrypt primitive behind `passlib.CryptContext` is external library
  code: it is modelled as an ideal injective digest (`Digest`), per the
  Credential Hasher contract of the spec (section 4.1).  The byte-level
  truncation performed by the repository's own code is modelled exactly.
* A JWT is modelled as its decoded claims plus the key it was signed
  with; `jwtDecode` succeeds exactly when the verification key equals the
  signing key (signature validity) and the `exp` claim, when present, is
  not in the past — the checks `python-jose`'s `jwt.decode` performs.
* The SQLAlchemy session is modelled as an explicit `DB` value (a list of
  user rows plus a fresh-id counter standing for `uuid4`); `commit` of an
  `INSERT` enforces the three nullable unique columns of the `users`
  table and fails with an integrity error on violation, as the real
  database does.
* The network and cryptography inside `verify_apple_token` are external
  effects; they are modelled by an explicit outcome parameter enumerating
  the possible results of the JWKS fetch, key selection and
  signature/claims verification, following the source's call structure.
-/

namespace PulseTempo

/-- A Unicode scalar value, the code points a Python `str` that can be
UTF-8-encoded may contain (surrogates excluded). -/
def ValidScalar (c : Nat) : Prop := c < 0x110000 ∧ (c < 0xD800 ∨ 0xE000 ≤ c)

instance (c : Nat) : Decidable (ValidScalar c) := by
  unfold ValidScalar; exact inferInstance

/-- A password: a Python `str` as a list of Unicode scalar values. -/
abbrev PyStr := List Nat

/-- All code points of the string are Unicode scalar values. -/
def ValidPyStr (s : PyStr) : Prop := ∀ c ∈ s, ValidScalar c

instance (s : PyStr) : Decidable (ValidPyStr s) := by
  unfold ValidPyStr; exact inferInstance

/-- UTF-8 encoding of one Unicode scalar value (`str.encode('utf-8')`,
per scalar). -/
def utf8EncodeChar (c : Nat) : List Nat :=
  if c < 0x80 then [c]
  else if c < 0x800 then [0xC0 + c / 0x40, 0x80 + c % 0x40]
  else if c < 0x10000 then
    [0xE0 + c / 0x1000, 0x80 + c / 0x40 % 0x40, 0x80 + c % 0x40]
  else
    [0xF0 + c / 0x40000, 0x80 + c / 0x1000 % 0x40, 0x80 + c / 0x40 % 0x40,
      0x80 + c % 0x40]

/-- `str.encode('utf-8')`: concatenation of the per-scalar encodings. -/
def utf8Encode (s : PyStr) : List Nat := s.flatMap utf8EncodeChar

/-- Valid range of the second byte of a three-byte sequence, given its
lead byte (Python's UTF-8 decoder rejects overlong forms and surrogates
at the second byte). -/
def utf8B1Lo3 (b0 : Nat) : Nat := if b0 = 0xE0 then 0xA0 else 0x80

/-- Upper bound (exclusive) of the second byte of a three-byte sequence. -/
def utf8B1Hi3 (b0 : Nat) : Nat := if b0 = 0xED then 0xA0 else 0xC0

/-- Valid range of the second byte of a four-byte sequence. -/
def utf8B1Lo4 (b0 : Nat) : Nat := if b0 = 0xF0 then 0x90 else 0x80

/-- Upper bound (exclusive) of the second byte of a four-byte sequence. -/
def utf8B1Hi4 (b0 : Nat) : Nat := if b0 = 0xF4 then 0x90 else 0xC0

/-- `bytes.decode('utf-8', errors='ignore')`: decode UTF-8, dropping the
bytes of any invalid or truncated sequence instead of raising.  On an
invalid byte the maximal valid partial sequence before it is skipped and
decoding resumes at that byte; a sequence truncated by the end of input
is dropped. -/
def utf8DecodeIgnore : List Nat → PyStr
  | [] => []
  | b0 :: rest =>
    if b0 < 0x80 then b0 :: utf8DecodeIgnore rest
    else if b0 < 0xC2 then utf8DecodeIgnore rest
    else if b0 < 0xE0 then
      match rest with
      | [] => []
      | b1 :: rest1 =>
        if 0x80 ≤ b1 ∧ b1 < 0xC0 then
          ((b0 - 0xC0) * 0x40 + (b1 - 0x80)) :: utf8DecodeIgnore rest1
        else utf8DecodeIgnore (b1 :: rest1)
    else if b0 < 0xF0 then
      match rest with
      | [] => []
      | b1 :: rest1 =>
        if utf8B1Lo3 b0 ≤ b1 ∧ b1 < utf8B1Hi3 b0 then
          match rest1 with
          | [] => []
          | b2 :: rest2 =>
            if 0x80 ≤ b2 ∧ b2 < 0xC0 then
              ((b0 - 0xE0) * 0x1000 + (b1 - 0x80) * 0x40 + (b2 - 0x80)) ::
                utf8DecodeIgnore rest2
            else utf8DecodeIgnore (b2 :: rest2)
        else utf8DecodeIgnore (b1 :: rest1)
    else if b0 < 0xF5 then
      match rest with
      | [] => []
      | b1 :: rest1 =>
        if utf8B1Lo4 b0 ≤ b1 ∧ b1 < utf8B1Hi4 b0 then
          match rest1 with
          | [] => []
          | b2 :: rest2 =>
            if 0x80 ≤ b2 ∧ b2 < 0xC0 then
              match rest2 with
              | [] => []
              | b3 :: rest3 =>
                if 0x80 ≤ b3 ∧ b3 < 0xC0 then
                  ((b0 - 0xF0) * 0x40000 + (b1 - 0x80) * 0x1000 +
                      (b2 - 0x80) * 0x40 + (b3 - 0x80)) ::
                    utf8DecodeIgnore rest3
                else utf8DecodeIgnore (b3 :: rest3)
            else utf8DecodeIgnore (b2 :: rest2)
        else utf8DecodeIgnore (b1 :: rest1)
    else utf8DecodeIgnore rest
termination_by l => l.length
decreasing_by all_goals (simp only [List.length_cons]; omega)

/-- Number of bytes of the UTF-8 encoding of a string. -/
def utf8ByteLen (s : PyStr) : Nat := (utf8Encode s).length

/-- A stored password digest.  `passlib`'s bcrypt is external library
code; it is modelled as an ideal injective one-way digest (salt and cost
parameters elided): the digest is determined by, and determines, the
hashed content — the Credential Hasher contract of spec section 4.1.
`invalid` stands for a malformed or unsupported digest string. -/
inductive Digest where
  | bcrypt (content : PyStr)
  | invalid
deriving DecidableEq, Repr

/-- `pwd_context.hash` (ideal model, see `Digest`). -/
def pwdContextHash (content : PyStr) : Digest := Digest.bcrypt content

/-- `pwd_context.verify` (ideal model, see `Digest`): true exactly when
the candidate content matches the hashed content; false on a malformed
digest. -/
def pwdContextVerify (content : PyStr) (d : Digest) : Bool :=
  match d with
  | Digest.bcrypt stored => content == stored
  | Digest.invalid => false

/-- `security.py` line 39: `password.encode('utf-8')[:72].decode('utf-8',
errors='ignore')` — the truncation `get_password_hash` applies. -/
def truncate72Hash (password : PyStr) : PyStr :=
  utf8DecodeIgnore ((utf8Encode password).take 72)

/-- `security.py` lines 32–33: `plain_password.encode('utf-8')[:72]
.decode('utf-8', errors='ignore')` — the truncation `verify_password`
applies. -/
def truncate72Verify (plain_password : PyStr) : PyStr :=
  utf8DecodeIgnore ((utf8Encode plain_password).take 72)

/-- `security.get_password_hash`. -/
def get_password_hash (password : PyStr) : Digest :=
  pwdContextHash (truncate72Hash password)

/-- `security.verify_password`. -/
def verify_password (plain_password : PyStr) (hashed_password : Digest) : Bool :=
  pwdContextVerify (truncate72Verify plain_password) hashed_password

/-! ## Token service (`security.py`, JWT model) -/

/-- `security.SECRET_KEY` (the `os.getenv` default; one process-wide
symmetric secret). -/
def SECRET_KEY : String := "dev_secret_key_change_in_production"

/-- `security.ACCESS_TOKEN_EXPIRE_MINUTES`. -/
def ACCESS_TOKEN_EXPIRE_MINUTES : Int := 30

/-- `security.REFRESH_TOKEN_EXPIRE_DAYS`. -/
def REFRESH_TOKEN_EXPIRE_DAYS : Int := 7

/-- The claims of a JWT payload used by this system.  `typ` models the
`"type"` claim; access tokens omit it (`none`). -/
structure JWTClaims where
  sub : Option String
  exp : Option Int
  typ : Option String
deriving DecidableEq, Repr

/-- A JWT: its claims together with the key its signature was produced
with.  The signature verifies under key `k` exactly when
`signedWith = k`. -/
structure Token where
  claims : JWTClaims
  signedWith : String
deriving DecidableEq, Repr

/-- `jose.jwt.encode(claims, key, algorithm)`. -/
def jwtEncode (claims : JWTClaims) (key : String) : Token := ⟨claims, key⟩

/-- `jose.jwt.decode(token, key, algorithms)`: checks the signature, then
the `exp` claim when present (expired when `exp < now`); raises
`JWTError` (modelled as `Except.error`) otherwise. -/
def jwtDecode (t : Token) (key : String) (now : Int) : Except String JWTClaims :=
  if t.signedWith ≠ key then Except.error "Signature verification failed."
  else
    match t.claims.exp with
    | some e =>
      if e < now then Except.error "Signature has expired."
      else Except.ok t.claims
    | none => Except.ok t.claims

/-- `security.create_access_token`: `{"exp": now + 30 minutes,
"sub": str(subject)}` — no `"type"` claim. -/
def create_access_token (subject : String) (now : Int) : Token :=
  jwtEncode
    { sub := some subject
      exp := some (now + ACCESS_TOKEN_EXPIRE_MINUTES * 60)
      typ := none }
    SECRET_KEY

/-- `security.create_refresh_token`: `{"exp": now + 7 days,
"sub": str(subject), "type": "refresh"}`. -/
def create_refresh_token (subject : String) (now : Int) : Token :=
  jwtEncode
    { sub := some subject
      exp := some (now + REFRESH_TOKEN_EXPIRE_DAYS * 86400)
      typ := some "refresh" }
    SECRET_KEY

/-! ## User directory (`models/user.py`, `crud/crud_user.py`) -/

/-- A row of the `users` table (`models/user.py`).  `created_at` is kept
as the insertion time counter; `id` models the `uuid4` primary key as an
opaque string. -/
structure User where
  id : String
  apple_user_id : Option String
  email : Option String
  hashed_password : Option Digest
  username : Option String
  first_name : Option String
  last_name : Option String
deriving DecidableEq, Repr

/-- The backing store: the `users` table in insertion order plus a
fresh-id source standing for `uuid.uuid4` (each draw is distinct from
all earlier ones). -/
structure DB where
  users : List User
  nextId : Nat
deriving DecidableEq, Repr

/-- The next fresh primary key. -/
def freshUserId (db : DB) : String := "uid-" ++ toString db.nextId

/-- `crud_user.get`: `db.query(User).filter(User.id == user_id).first()`. -/
def getUser (db : DB) (user_id : String) : Option User :=
  db.users.find? (fun u => u.id == user_id)

/-- `crud_user.get_by_apple_id`. -/
def get_by_apple_id (db : DB) (apple_user_id : String) : Option User :=
  db.users.find? (fun u => u.apple_user_id == some apple_user_id)

/-- `crud_user.get_by_email`. -/
def get_by_email (db : DB) (email : String) : Option User :=
  db.users.find? (fun u => u.email == some email)

/-- `crud_user.get_by_username`. -/
def get_by_username (db : DB) (username : String) : Option User :=
  db.users.find? (fun u => u.username == some username)

/-- The error the database raises at `commit` when an `INSERT` violates a
unique constraint (SQLAlchemy `IntegrityError`). -/
inductive DBError where
  | integrityError
deriving DecidableEq, Repr

/-- The unique constraints of the `users` table (`unique=True` on
`apple_user_id`, `email`, `username`; null values never conflict). -/
def violatesUnique (db : DB) (u : User) : Bool :=
  db.users.any (fun v =>
    (u.apple_user_id.isSome && v.apple_user_id == u.apple_user_id) ||
    (u.email.isSome && v.email == u.email) ||
    (u.username.isSome && v.username == u.username))

/-- Commit of a single-row `INSERT`: enforces the unique constraints and
appends the row. -/
def dbInsert (db : DB) (u : User) : Except DBError DB :=
  if violatesUnique db u then Except.error DBError.integrityError
  else Except.ok { users := db.users ++ [u], nextId := db.nextId + 1 }

/-- `schemas/user.py` `UserCreateApple`. -/
structure UserCreateApple where
  apple_user_id : String
  email : Option String
  username : Option String
  first_name : Option String
  last_name : Option String
deriving DecidableEq, Repr

/-- `schemas/user.py` `UserCreateEmail` (all fields required except the
names; the password is the raw string). -/
structure UserCreateEmail where
  email : String
  password : PyStr
  username : String
  first_name : Option String
  last_name : Option String
deriving DecidableEq, Repr

/-- The row `crud_user.create` builds from a `UserCreateApple` (no
password hash). -/
def appleUserRow (db : DB) (obj_in : UserCreateApple) : User :=
  { id := freshUserId db
    apple_user_id := some obj_in.apple_user_id
    email := obj_in.email
    hashed_password := none
    username := obj_in.username
    first_name := obj_in.first_name
    last_name := obj_in.last_name }

/-- `crud_user.create`: build the row from Apple Sign-In data, `add` and
`commit` (the commit surfaces unique-constraint violations). -/
def create (db : DB) (obj_in : UserCreateApple) : Except DBError (User × DB) :=
  let u := appleUserRow db obj_in
  (dbInsert db u).map (fun db' => (u, db'))

/-- The row `crud_user.create_with_email` builds: the password is hashed
with `get_password_hash`, `apple_user_id` stays null. -/
def emailUserRow (db : DB) (obj_in : UserCreateEmail) : User :=
  { id := freshUserId db
    apple_user_id := none
    email := some obj_in.email
    hashed_password := some (get_password_hash obj_in.password)
    username := some obj_in.username
    first_name := obj_in.first_name
    last_name := obj_in.last_name }

/-- `crud_user.create_with_email`. -/
def create_with_email (db : DB) (obj_in : UserCreateEmail) :
    Except DBError (User × DB) :=
  let u := emailUserRow db obj_in
  (dbInsert db u).map (fun db' => (u, db'))

/-- `crud_user.authenticate_by_identifier`: find the first row whose
email or username equals the identifier; fail on no row, on a row with
no password hash (Apple-only account), or on password mismatch. -/
def authenticate_by_identifier (db : DB) (identifier : String)
    (password : PyStr) : Option User :=
  match db.users.find? (fun u =>
      u.email == some identifier || u.username == some identifier) with
  | none => none
  | some user =>
    match user.hashed_password with
    | none => none
    | some h => if verify_password password h then some user else none

/-- `crud_user.authenticate_email` (legacy, kept for compatibility):
delegates to `authenticate_by_identifier`. -/
def authenticate_email (db : DB) (email : String) (password : PyStr) :
    Option User :=
  authenticate_by_identifier db email password

/-! ## Federated identity verifier (`core/apple_auth.py`) -/

/-- The claims `verify_apple_token` extracts from a verified token:
`{"apple_user_id": claims["sub"], "email": claims.get("email")}`. -/
structure VerifiedAppleClaims where
  apple_user_id : String
  email : Option String
deriving DecidableEq, Repr

/-- `IdentityVerificationError`: the failure modes of
`verify_apple_token` (spec section 4.2); each corresponds to an
exception the Python function lets propagate. -/
inductive IdentityVerificationError where
  | keyFetchFailed
  | noKeyMatched
  | invalidSignature
  | claimCheckFailed
deriving DecidableEq, Repr

/-- The possible results of the external steps of `verify_apple_token`
(JWKS fetch over the network, key-id lookup, RS256 signature check and
issuer/audience/expiry claim validation).  These steps are external
library and network effects, so they enter the model as an explicit
outcome parameter, one constructor per result the source's call sequence
can produce. -/
inductive AppleVerifyOutcome where
  | fetchFailure
  | noMatchingKey
  | invalidSignature
  | claimCheckFailure
  | valid (claims : VerifiedAppleClaims)
deriving DecidableEq, Repr

/-- `apple_auth.verify_apple_token`: every non-valid outcome raises; it
has no exception handler, so the error propagates to the caller. -/
def verify_apple_token (outcome : AppleVerifyOutcome) :
    Except IdentityVerificationError VerifiedAppleClaims :=
  match outcome with
  | AppleVerifyOutcome.fetchFailure =>
    Except.error IdentityVerificationError.keyFetchFailed
  | AppleVerifyOutcome.noMatchingKey =>
    Except.error IdentityVerificationError.noKeyMatched
  | AppleVerifyOutcome.invalidSignature =>
    Except.error IdentityVerificationError.invalidSignature
  | AppleVerifyOutcome.claimCheckFailure =>
    Except.error IdentityVerificationError.claimCheckFailed
  | AppleVerifyOutcome.valid claims => Except.ok claims

/-! ## Authentication orchestrator (`routers/auth.py`) -/

/-- Result of `/auth/register` (`register_with_email`): the two conflict
rejections are distinct errors (HTTP 400 "An account with this email
already exists" vs HTTP 409 "This username is already taken");
`serverError` stands for an uncaught database error (HTTP 500). -/
inductive RegisterResult where
  | emailConflict
  | usernameConflict
  | success (access_token : Token) (refresh_token : Token)
  | serverError
deriving DecidableEq, Repr

/-- `auth.register_with_email`: check email, then username, then create
the user and mint the token pair.  Returns the resulting store alongside
(the failure branches perform no write). -/
def register_with_email (db : DB) (user_in : UserCreateEmail) (now : Int) :
    RegisterResult × DB :=
  if (get_by_email db user_in.email).isSome then
    (RegisterResult.emailConflict, db)
  else if (get_by_username db user_in.username).isSome then
    (RegisterResult.usernameConflict, db)
  else
    match create_with_email db user_in with
    | Except.error _ => (RegisterResult.serverError, db)
    | Except.ok (user, db') =>
      (RegisterResult.success (create_access_token user.id now)
          (create_refresh_token user.id now),
        db')

/-- Result of `/auth/login/email` (`login_with_email`): one single
failure value, HTTP 401 "Incorrect email/username or password". -/
inductive LoginResult where
  | invalidCredentials
  | success (access_token : Token) (refresh_token : Token)
deriving DecidableEq, Repr

/-- `auth.login_with_email`: authenticate by identifier; every failure
maps to the one `invalidCredentials` value. -/
def login_with_email (db : DB) (identifier : String) (password : PyStr)
    (now : Int) : LoginResult :=
  match authenticate_by_identifier db identifier password with
  | none => LoginResult.invalidCredentials
  | some user =>
    LoginResult.success (create_access_token user.id now)
      (create_refresh_token user.id now)

/-- Result of `/auth/refresh` (`refresh_access_token`): the 401 branches
(`TokenError` in the spec's taxonomy), the 404 user-not-found branch, and
success. -/
inductive RefreshResult where
  | tokenError (detail : String)
  | userNotFound
  | success (access_token : Token) (refresh_token : Token)
deriving DecidableEq, Repr

/-- The validation stage of `auth.refresh_access_token` (lines 112–133):
`jwt.decode` against `SECRET_KEY` (signature and expiry), then the
`payload.get("type") != "refresh"` check, then the truthiness check on
`payload.get("sub")`; on success it yields the subject that proceeds to
user lookup. -/
def decodeValidateRefresh (refresh_token : Token) (now : Int) :
    Except String String :=
  match jwtDecode refresh_token SECRET_KEY now with
  | Except.error _ => Except.error "Refresh token expired or invalid"
  | Except.ok payload =>
    if payload.typ ≠ some "refresh" then Except.error "Invalid token type"
    else
      match payload.sub with
      | none => Except.error "Invalid token payload"
      | some s =>
        if s = "" then Except.error "Invalid token payload"
        else Except.ok s

/-- `auth.refresh_access_token`: validate the token, look the subject up
in the directory, mint a fresh pair.  The handler performs no store
write, so the store is returned unchanged. -/
def refresh_access_token (db : DB) (refresh_token : Token) (now : Int) :
    RefreshResult × DB :=
  match decodeValidateRefresh refresh_token now with
  | Except.error detail => (RefreshResult.tokenError detail, db)
  | Except.ok user_id =>
    match getUser db user_id with
    | none => (RefreshResult.userNotFound, db)
    | some user =>
      (RefreshResult.success (create_access_token user.id now)
          (create_refresh_token user.id now),
        db)

/-- The request body of `/auth/login/apple` minus the identity token
itself (which is consumed by the verifier model). -/
structure AppleLoginRequest where
  email : Option String
  first_name : Option String
  last_name : Option String
deriving DecidableEq, Repr

/-- Python's `x or y` on optional strings: `y` when `x` is `None` or the
empty string (falsy), `x` otherwise — `verified["email"] or
login_req.email` in `login_with_apple`. -/
def pyOrStr (x y : Option String) : Option String :=
  match x with
  | some s => if s = "" then y else some s
  | none => y

/-- Result of `/auth/login/apple` (`login_with_apple`): verification
errors propagate as authentication failures; an uncaught database error
surfaces as a server error; otherwise a token pair. -/
inductive AppleLoginResult where
  | authError (e : IdentityVerificationError)
  | serverError
  | success (access_token : Token) (refresh_token : Token)
deriving DecidableEq, Repr

/-- `auth.login_with_apple`: verify the identity token, look up by the
verified subject, create the user when absent (email preferring the
provider claim via Python `or`), mint the token pair. -/
def login_with_apple (db : DB) (login_req : AppleLoginRequest)
    (outcome : AppleVerifyOutcome) (now : Int) : AppleLoginResult × DB :=
  match verify_apple_token outcome with
  | Except.error e => (AppleLoginResult.authError e, db)
  | Except.ok verified =>
    match get_by_apple_id db verified.apple_user_id with
    | some user =>
      (AppleLoginResult.success (create_access_token user.id now)
          (create_refresh_token user.id now),
        db)
    | none =>
      match create db
          { apple_user_id := verified.apple_user_id
            email := pyOrStr verified.email login_req.email
            username := none
            first_name := login_req.first_name
            last_name := login_req.last_name } with
      | Except.error _ => (AppleLoginResult.serverError, db)
      | Except.ok (user, db') =>
        (AppleLoginResult.success (create_access_token user.id now)
            (create_refresh_token user.id now),
          db')

/-! ## The federated first-login race (auth.py lines 171–179)

Two concurrent `/auth/login/apple` requests (verification already
succeeded for both) each run the two store operations of the handler:
the `get_by_apple_id` read, then — when the read returned no row — the
`create` insert, whose commit is the atomic step at which the database
enforces the unique constraints.  An interleaving is a schedule saying
which request performs its next store operation at each instant. -/

/-- Per-request outcome of the raced handler: a token pair for a user id
(collapsed to the id, since the pair is a pure function of id and time),
or the uncaught `IntegrityError` from the losing insert (HTTP 500 — the
source has no handler around `crud_user.create`). -/
inductive RaceOutcome where
  | success (user_id : String)
  | integrityError
deriving DecidableEq, Repr

/-- Progress of one request through the handler's two store operations:
`looked` holds the lookup's result once it ran (`some none` = no row,
`some (some uid)` = found row `uid`); `outcome` is set when the request
finished. -/
structure RaceReqState where
  looked : Option (Option String)
  outcome : Option RaceOutcome
deriving DecidableEq, Repr

/-- A request that has not run any step yet. -/
def raceInit : RaceReqState := { looked := none, outcome := none }

/-- One store operation of one request against the current store:
first the `get_by_apple_id` read, then the create-or-return step of
`login_with_apple` (create only when the read saw no row; the insert's
commit may raise `IntegrityError`, which the handler does not catch).
A finished request steps to itself. -/
def raceStepReq (db : DB) (inp : UserCreateApple) (s : RaceReqState) :
    RaceReqState × DB :=
  match s.looked with
  | none =>
    ({ s with
        looked := some ((get_by_apple_id db inp.apple_user_id).map User.id) },
      db)
  | some r =>
    match s.outcome with
    | some _ => (s, db)
    | none =>
      match r with
      | some uid => ({ s with outcome := some (RaceOutcome.success uid) }, db)
      | none =>
        match create db inp with
        | Except.ok (u, db') =>
          ({ s with outcome := some (RaceOutcome.success u.id) }, db')
        | Except.error _ =>
          ({ s with outcome := some RaceOutcome.integrityError }, db)

/-- Run a schedule: `true` lets request 1 perform its next store
operation, `false` request 2. -/
def runRace (inp1 inp2 : UserCreateApple) :
    List Bool → RaceReqState × RaceReqState × DB →
    RaceReqState × RaceReqState × DB
  | [], st => st
  | true :: sched, (s1, s2, db) =>
    let (s1', db') := raceStepReq db inp1 s1
    runRace inp1 inp2 sched (s1', s2, db')
  | false :: sched, (s1, s2, db) =>
    let (s2', db') := raceStepReq db inp2 s2
    runRace inp1 inp2 sched (s1, s2', db')

/-- The six interleavings of two two-operation requests. -/
def raceSchedules : List (List Bool) :=
  [[true, true, false, false], [true, false, true, false],
    [true, false, false, true], [false, true, true, false],
    [false, true, false, true], [false, false, true, true]]

/-! ## Lemmas about the UTF-8 byte-level truncation -/

/-- Decoding the empty byte string yields the empty string. -/
lemma decode_nil : utf8DecodeIgnore [] = [] := by
  rw [utf8DecodeIgnore.eq_def]

/-- Encoding distributes over cons. -/
lemma encode_cons (c : Nat) (cs : PyStr) :
    utf8Encode (c :: cs) = utf8EncodeChar c ++ utf8Encode cs := by
  simp [utf8Encode]

/-- Length of a scalar's UTF-8 encoding by range. -/
lemma encChar_len (c : Nat) : (utf8EncodeChar c).length =
    if c < 0x80 then 1 else if c < 0x800 then 2
    else if c < 0x10000 then 3 else 4 := by
  unfold utf8EncodeChar; split_ifs <;> rfl

/-- The decoder consumes a one-byte (ASCII) encoding exactly. -/
lemma decode_enc_ascii (c : Nat) (bs : List Nat) (h : c < 0x80) :
    utf8DecodeIgnore (utf8EncodeChar c ++ bs) = c :: utf8DecodeIgnore bs := by
  rw [show utf8EncodeChar c = [c] by unfold utf8EncodeChar; rw [if_pos h]]
  rw [List.cons_append, List.nil_append]
  rw [utf8DecodeIgnore.eq_def]
  simp only []
  rw [if_pos h]

set_option maxRecDepth 8192 in
/-- The decoder consumes a two-byte encoding exactly. -/
lemma decode_enc_two (c : Nat) (bs : List Nat) (h1 : 0x80 ≤ c) (h2 : c < 0x800) :
    utf8DecodeIgnore (utf8EncodeChar c ++ bs) = c :: utf8DecodeIgnore bs := by
  rw [show utf8EncodeChar c = [0xC0 + c / 0x40, 0x80 + c % 0x40] by
    unfold utf8EncodeChar; rw [if_neg (by omega), if_pos h2]]
  rw [List.cons_append, List.cons_append, List.nil_append]
  rw [utf8DecodeIgnore.eq_def]
  simp only []
  rw [if_neg (by omega), if_neg (by omega), if_pos (by omega)]
  rw [if_pos (show 0x80 ≤ 0x80 + c % 0x40 ∧ 0x80 + c % 0x40 < 0xC0 by omega)]
  congr 1
  omega

set_option maxRecDepth 8192 in
/-- The decoder consumes a three-byte encoding of a non-surrogate scalar
exactly. -/
lemma decode_enc_three (c : Nat) (bs : List Nat) (h1 : 0x800 ≤ c) (h2 : c < 0x10000)
    (h3 : c < 0xD800 ∨ 0xE000 ≤ c) :
    utf8DecodeIgnore (utf8EncodeChar c ++ bs) = c :: utf8DecodeIgnore bs := by
  rw [show utf8EncodeChar c = [0xE0 + c / 0x1000, 0x80 + c / 0x40 % 0x40, 0x80 + c % 0x40] by
    unfold utf8EncodeChar; rw [if_neg (by omega), if_neg (by omega), if_pos h2]]
  rw [List.cons_append, List.cons_append, List.cons_append, List.nil_append]
  rw [utf8DecodeIgnore.eq_def]
  simp only []
  rw [if_neg (by omega), if_neg (by omega), if_neg (by omega), if_pos (by omega)]
  rw [if_pos (show utf8B1Lo3 (0xE0 + c / 0x1000) ≤ 0x80 + c / 0x40 % 0x40 ∧
      0x80 + c / 0x40 % 0x40 < utf8B1Hi3 (0xE0 + c / 0x1000) by
    unfold utf8B1Lo3 utf8B1Hi3
    constructor
    · split <;> omega
    · split <;> omega)]
  rw [if_pos (show 0x80 ≤ 0x80 + c % 0x40 ∧ 0x80 + c % 0x40 < 0xC0 by omega)]
  congr 1
  omega

set_option maxRecDepth 8192 in
/-- The decoder consumes a four-byte encoding exactly. -/
lemma decode_enc_four (c : Nat) (bs : List Nat) (h1 : 0x10000 ≤ c) (h2 : c < 0x110000) :
    utf8DecodeIgnore (utf8EncodeChar c ++ bs) = c :: utf8DecodeIgnore bs := by
  rw [show utf8EncodeChar c =
      [0xF0 + c / 0x40000, 0x80 + c / 0x1000 % 0x40, 0x80 + c / 0x40 % 0x40, 0x80 + c % 0x40] by
    unfold utf8EncodeChar; rw [if_neg (by omega), if_neg (by omega), if_neg (by omega)]]
  rw [List.cons_append, List.cons_append, List.cons_append, List.cons_append, List.nil_append]
  rw [utf8DecodeIgnore.eq_def]
  simp only []
  rw [if_neg (by omega), if_neg (by omega), if_neg (by omega), if_neg (by omega),
    if_pos (by omega)]
  rw [if_pos (show utf8B1Lo4 (0xF0 + c / 0x40000) ≤ 0x80 + c / 0x1000 % 0x40 ∧
      0x80 + c / 0x1000 % 0x40 < utf8B1Hi4 (0xF0 + c / 0x40000) by
    unfold utf8B1Lo4 utf8B1Hi4
    constructor
    · split <;> omega
    · split <;> omega)]
  rw [if_pos (show 0x80 ≤ 0x80 + c / 0x40 % 0x40 ∧ 0x80 + c / 0x40 % 0x40 < 0xC0 by omega)]
  rw [if_pos (show 0x80 ≤ 0x80 + c % 0x40 ∧ 0x80 + c % 0x40 < 0xC0 by omega)]
  congr 1
  omega

set_option maxRecDepth 8192 in
/-- Everything `utf8DecodeIgnore` emits is a Unicode scalar value: the
`errors='ignore'` decode never produces an invalid code point. -/
lemma decode_valid (bs : List Nat) : ValidPyStr (utf8DecodeIgnore bs) := by
  unfold ValidPyStr
  induction bs using utf8DecodeIgnore.induct
  all_goals intro c hc
  all_goals rw [utf8DecodeIgnore.eq_def] at hc
  all_goals simp only [] at hc
  all_goals try exact absurd hc (List.not_mem_nil c)
  all_goals split_ifs at hc <;> try contradiction
  all_goals try solve_by_elim
  all_goals simp only [List.mem_cons] at hc
  all_goals rcases hc with rfl | hc
  all_goals try solve_by_elim
  all_goals unfold ValidScalar
  all_goals simp only [utf8B1Lo3, utf8B1Hi3, utf8B1Lo4, utf8B1Hi4] at *
  all_goals try split_ifs at *
  all_goals omega

set_option maxRecDepth 8192 in
/-- Re-encoding what the decoder produced never yields more bytes than
were consumed: each emitted scalar re-encodes to exactly the bytes of
its sequence and skipped bytes re-encode to nothing. -/
lemma encode_decode_length_le (bs : List Nat) :
    (utf8Encode (utf8DecodeIgnore bs)).length ≤ bs.length := by
  induction bs using utf8DecodeIgnore.induct
  all_goals rw [utf8DecodeIgnore.eq_def]
  all_goals simp only []
  all_goals try split_ifs <;> try contradiction
  all_goals simp only [utf8Encode, List.flatMap_cons, List.flatMap_nil, List.append_nil,
    List.length_append, List.length_cons, List.length_nil, encChar_len] at *
  all_goals try simp only [utf8B1Lo3, utf8B1Hi3, utf8B1Lo4, utf8B1Hi4] at *
  all_goals try split_ifs at *
  all_goals omega

set_option maxRecDepth 8192 in
/-- Decoding a valid encoding followed by arbitrary bytes yields the
string followed by the decode of the remaining bytes. -/
lemma decode_encode_append (s : PyStr) (bs : List Nat) (h : ValidPyStr s) :
    utf8DecodeIgnore (utf8Encode s ++ bs) = s ++ utf8DecodeIgnore bs := by
  induction s with
  | nil => simp [utf8Encode]
  | cons c cs ih =>
    have hc : ValidScalar c := h c (List.mem_cons_self c cs)
    have hcs : ValidPyStr cs := fun x hx => h x (List.mem_cons_of_mem _ hx)
    rw [encode_cons, List.append_assoc]
    unfold ValidScalar at hc
    rcases Nat.lt_or_ge c 0x80 with h1 | h1
    · rw [decode_enc_ascii c _ h1, ih hcs, List.cons_append]
    · rcases Nat.lt_or_ge c 0x800 with h2 | h2
      · rw [decode_enc_two c _ h1 h2, ih hcs, List.cons_append]
      · rcases Nat.lt_or_ge c 0x10000 with h3 | h3
        · rw [decode_enc_three c _ h2 h3 (by omega), ih hcs, List.cons_append]
        · rw [decode_enc_four c _ h3 (by omega), ih hcs, List.cons_append]

/-- UTF-8 round trip for valid strings. -/
lemma decode_encode (s : PyStr) (h : ValidPyStr s) :
    utf8DecodeIgnore (utf8Encode s) = s := by
  have h2 := decode_encode_append s [] h
  rw [List.append_nil, decode_nil, List.append_nil] at h2
  exact h2

/-- The truncation keeps at most 72 encoded bytes. -/
lemma truncate72_byteLen_le (p : PyStr) : utf8ByteLen (truncate72Hash p) ≤ 72 := by
  unfold utf8ByteLen truncate72Hash
  calc (utf8Encode (utf8DecodeIgnore ((utf8Encode p).take 72))).length
      ≤ ((utf8Encode p).take 72).length := encode_decode_length_le _
    _ ≤ 72 := by simp [List.length_take]

/-- The truncation is idempotent: truncating an already-truncated
password changes nothing. -/
lemma truncate72_idem (p : PyStr) :
    truncate72Hash (truncate72Hash p) = truncate72Hash p := by
  have hvalid : ValidPyStr (truncate72Hash p) := decode_valid _
  have hlen : utf8ByteLen (truncate72Hash p) ≤ 72 := truncate72_byteLen_le p
  unfold utf8ByteLen at hlen
  show utf8DecodeIgnore ((utf8Encode (truncate72Hash p)).take 72) = truncate72Hash p
  rw [List.take_of_length_le hlen]
  exact decode_encode _ hvalid

/-- A valid password of at most 72 encoded bytes is untouched by the
truncation. -/
lemma truncate72_short (p : PyStr) (hv : ValidPyStr p)
    (hlen : utf8ByteLen p ≤ 72) : truncate72Hash p = p := by
  unfold truncate72Hash
  unfold utf8ByteLen at hlen
  rw [List.take_of_length_le hlen]
  exact decode_encode p hv

/-! ## Refresh-token validation lemmas -/

/-- `decodeValidateRefresh` succeeds exactly when the signature matches
the process secret, the `exp` claim (when present) is not in the past,
the `"type"` claim is `"refresh"`, and the `sub` claim is a nonempty
string. -/
lemma decodeValidateRefresh_ok_iff (t : Token) (now : Int) (s : String) :
    decodeValidateRefresh t now = Except.ok s ↔
      t.signedWith = SECRET_KEY ∧ (∀ e, t.claims.exp = some e → ¬ e < now) ∧
      t.claims.typ = some "refresh" ∧ t.claims.sub = some s ∧ s ≠ "" := by
  obtain ⟨⟨sub, exp, typ⟩, key⟩ := t
  unfold decodeValidateRefresh jwtDecode
  cases exp <;> cases sub <;> simp_all
  all_goals (try split_ifs) <;> simp_all
  all_goals (try split_ifs) <;> simp_all
  all_goals aesop

/-! ## Claim theorems -/

/-- C1: every token presented to the refresh exchange is rejected with a
`TokenError` (an HTTP 401 branch) when its signature is invalid, when its
`exp` claim is in the past, or when its `"type"` claim is not
`"refresh"`; conversely, a token that reaches user lookup passed all
three checks; and in particular any output of `create_access_token`
(which carries no `"type"` claim) is rejected at every exchange time. -/
theorem refresh_rejects_invalid_tokens (db : DB) (t : Token) (now : Int) :
    ((t.signedWith ≠ SECRET_KEY ∨ (∃ e, t.claims.exp = some e ∧ e < now) ∨
        t.claims.typ ≠ some "refresh") →
      ∃ d, (refresh_access_token db t now).1 = RefreshResult.tokenError d) ∧
    (∀ s, decodeValidateRefresh t now = Except.ok s →
      t.signedWith = SECRET_KEY ∧ (∀ e, t.claims.exp = some e → ¬ e < now) ∧
      t.claims.typ = some "refresh") ∧
    (∀ subject : String, ∀ mintNow : Int,
      ∃ d, (refresh_access_token db (create_access_token subject mintNow) now).1 =
        RefreshResult.tokenError d) := by
  refine ⟨?_, ?_, ?_⟩
  · intro h
    cases hdv : decodeValidateRefresh t now with
    | error d => exact ⟨d, by simp [refresh_access_token, hdv]⟩
    | ok s =>
      exfalso
      rw [decodeValidateRefresh_ok_iff] at hdv
      obtain ⟨hk, he, ht, _, _⟩ := hdv
      rcases h with h | ⟨e, hee, hlt⟩ | h
      · exact h hk
      · exact he e hee hlt
      · exact h ht
  · intro s h
    rw [decodeValidateRefresh_ok_iff] at h
    exact ⟨h.1, h.2.1, h.2.2.1⟩
  · intro subject mintNow
    cases hdv : decodeValidateRefresh (create_access_token subject mintNow) now with
    | error d => exact ⟨d, by simp [refresh_access_token, hdv]⟩
    | ok s =>
      exfalso
      rw [decodeValidateRefresh_ok_iff] at hdv
      have := hdv.2.2.1
      simp [create_access_token, jwtEncode] at this

/-- Witness for C1 at a concrete badly-signed token and a concrete
access token. -/
theorem refresh_rejects_invalid_tokens_witness :
    (∃ d, (refresh_access_token ⟨[], 0⟩
      ⟨⟨some "u1", some 1000, some "refresh"⟩, "not-the-secret"⟩ 0).1 =
        RefreshResult.tokenError d) ∧
    ((create_refresh_token "u1" 0).signedWith = SECRET_KEY ∧
      (∀ e, (create_refresh_token "u1" 0).claims.exp = some e → ¬ e < (10 : Int)) ∧
      (create_refresh_token "u1" 0).claims.typ = some "refresh") := by
  constructor
  · exact (refresh_rejects_invalid_tokens ⟨[], 0⟩
      ⟨⟨some "u1", some 1000, some "refresh"⟩, "not-the-secret"⟩ 0).1
      (Or.inl (by decide))
  · exact (refresh_rejects_invalid_tokens ⟨[], 0⟩ (create_refresh_token "u1" 0) 10).2.1
      "u1" (by rfl)

/-- C2: local login returns the one fixed `invalidCredentials` value in
each of the three failure cases — no matching row, a matching row with
no password hash, and a matching row whose password verification
fails — so no output distinguishes the cases. -/
theorem login_uniform_invalid_credentials (db : DB) (identifier : String)
    (password : PyStr) (now : Int)
    (h : db.users.find? (fun u =>
          u.email == some identifier || u.username == some identifier) = none
      ∨ (∃ u, db.users.find? (fun u =>
          u.email == some identifier || u.username == some identifier) = some u
          ∧ u.hashed_password = none)
      ∨ (∃ u d, db.users.find? (fun u =>
          u.email == some identifier || u.username == some identifier) = some u
          ∧ u.hashed_password = some d ∧ verify_password password d = false)) :
    login_with_email db identifier password now = LoginResult.invalidCredentials := by
  unfold login_with_email authenticate_by_identifier
  rcases h with h | ⟨u, hu, hp⟩ | ⟨u, d, hu, hd, hvf⟩
  · rw [h]
  · rw [hu]
    simp only [hp]
  · rw [hu]
    simp only [hd, hvf]
    rw [if_neg (by simp [hvf])]

/-- Witness for C2: a directory with a federated-only user (no password
hash) rejects local login with `invalidCredentials`. -/
theorem login_uniform_invalid_credentials_witness :
    login_with_email
      ⟨[⟨"uid-0", some "apple-1", some "a@x.com", none, none, none, none⟩], 1⟩
      "a@x.com" [0x61] 0 = LoginResult.invalidCredentials :=
  login_uniform_invalid_credentials
    ⟨[⟨"uid-0", some "apple-1", some "a@x.com", none, none, none, none⟩], 1⟩
    "a@x.com" [0x61] 0
    (Or.inr (Or.inl ⟨⟨"uid-0", some "apple-1", some "a@x.com", none, none, none, none⟩,
      by decide, rfl⟩))

/-- C6: registration with a taken email returns the email-conflict error
and leaves the directory unchanged; with a fresh email but a taken
username it returns the distinct username-conflict error and leaves the
directory unchanged. -/
theorem register_conflict_creates_no_row (db : DB) (user_in : UserCreateEmail)
    (now : Int) :
    ((get_by_email db user_in.email).isSome = true →
      register_with_email db user_in now = (RegisterResult.emailConflict, db)) ∧
    (get_by_email db user_in.email = none →
      (get_by_username db user_in.username).isSome = true →
      register_with_email db user_in now = (RegisterResult.usernameConflict, db)) ∧
    RegisterResult.emailConflict ≠ RegisterResult.usernameConflict := by
  refine ⟨?_, ?_, by simp⟩
  · intro h
    unfold register_with_email
    rw [if_pos h]
  · intro h1 h2
    unfold register_with_email
    rw [if_neg (by simp [h1]), if_pos h2]

/-- Witness for C6 at a concrete one-user directory, exercising both
conflict branches. -/
theorem register_conflict_creates_no_row_witness :
    register_with_email
      ⟨[⟨"uid-0", none, some "a@x.com", none, some "alice", none, none⟩], 1⟩
      ⟨"a@x.com", [0x61], "bob", none, none⟩ 0 =
      (RegisterResult.emailConflict,
        ⟨[⟨"uid-0", none, some "a@x.com", none, some "alice", none, none⟩], 1⟩) ∧
    register_with_email
      ⟨[⟨"uid-0", none, some "a@x.com", none, some "alice", none, none⟩], 1⟩
      ⟨"b@x.com", [0x61], "alice", none, none⟩ 0 =
      (RegisterResult.usernameConflict,
        ⟨[⟨"uid-0", none, some "a@x.com", none, some "alice", none, none⟩], 1⟩) := by
  constructor
  · exact (register_conflict_creates_no_row
      ⟨[⟨"uid-0", none, some "a@x.com", none, some "alice", none, none⟩], 1⟩
      ⟨"a@x.com", [0x61], "bob", none, none⟩ 0).1 (by decide)
  · exact (register_conflict_creates_no_row
      ⟨[⟨"uid-0", none, some "a@x.com", none, some "alice", none, none⟩], 1⟩
      ⟨"b@x.com", [0x61], "alice", none, none⟩ 0).2.1 (by decide) (by decide)

/-- C9: a refresh exchange writes nothing — it returns the store
unchanged on every path — and refresh-token validity is a function of
the token, the secret and the time only: a token that validates at one
time still validates at any time at which its `exp` claim has not
passed. -/
theorem refresh_exchange_stateless (db : DB) (t0 : Token) (now0 : Int) :
    (refresh_access_token db t0 now0).2 = db ∧
    (∀ t : Token, ∀ now now' : Int, ∀ s : String,
      decodeValidateRefresh t now = Except.ok s →
      (∀ e, t.claims.exp = some e → ¬ e < now') →
      decodeValidateRefresh t now' = Except.ok s) := by
  constructor
  · unfold refresh_access_token
    split
    · rfl
    · split <;> rfl
  · intro t now now' s h hexp
    rw [decodeValidateRefresh_ok_iff] at h ⊢
    obtain ⟨hk, _, ht, hs, hne⟩ := h
    exact ⟨hk, hexp, ht, hs, hne⟩

/-- Witness for C9: a concrete exchange leaves the store unchanged, and
a concrete refresh token that validates at minting time still validates
later, before its expiry. -/
theorem refresh_exchange_stateless_witness :
    (refresh_access_token ⟨[], 0⟩ (create_refresh_token "u1" 0) 0).2 = ⟨[], 0⟩ ∧
    decodeValidateRefresh (create_refresh_token "u1" 0) 3600 = Except.ok "u1" := by
  constructor
  · exact (refresh_exchange_stateless ⟨[], 0⟩ (create_refresh_token "u1" 0) 0).1
  · exact (refresh_exchange_stateless ⟨[], 0⟩ (create_refresh_token "u1" 0) 0).2
      (create_refresh_token "u1" 0) 0 3600 "u1" (by rfl)
      (by
        intro e he
        simp [create_refresh_token, jwtEncode, REFRESH_TOKEN_EXPIRE_DAYS] at he
        omega)

/-- C10: the legacy email-only authentication entry point is
extensionally equal to the identifier-based one. -/
theorem authenticate_email_eq_authenticate_by_identifier (db : DB)
    (email : String) (password : PyStr) :
    authenticate_email db email password =
      authenticate_by_identifier db email password := rfl

/-- C3: a password of at most 72 UTF-8 bytes verifies against its own
hash; and two passwords that differ after the 72-byte truncation never
cross-verify. -/
theorem verify_hash_roundtrip_and_mismatch (p p1 p2 : PyStr)
    (hv : ValidPyStr p) (hlen : utf8ByteLen p ≤ 72)
    (hne : truncate72Hash p1 ≠ truncate72Hash p2) :
    verify_password p (get_password_hash p) = true ∧
    verify_password p1 (get_password_hash p2) = false := by
  constructor
  · show pwdContextVerify (truncate72Verify p) (pwdContextHash (truncate72Hash p)) = true
    unfold pwdContextVerify pwdContextHash truncate72Verify truncate72Hash
    simp
  · show pwdContextVerify (truncate72Verify p1) (pwdContextHash (truncate72Hash p2)) = false
    unfold pwdContextVerify pwdContextHash
    exact beq_eq_false_iff_ne.mpr (fun h => hne h)

/-- Witness for C3 at concrete passwords: "abc" against its own hash,
and "abc" against the hash of "abd". -/
theorem verify_hash_roundtrip_and_mismatch_witness :
    verify_password [0x61, 0x62, 0x63] (get_password_hash [0x61, 0x62, 0x63]) = true ∧
    verify_password [0x61, 0x62, 0x63] (get_password_hash [0x61, 0x62, 0x64]) = false :=
  verify_hash_roundtrip_and_mismatch [0x61, 0x62, 0x63] [0x61, 0x62, 0x63]
    [0x61, 0x62, 0x64] (by decide) (by decide)
    (by
      rw [truncate72_short [0x61, 0x62, 0x63] (by decide) (by decide),
        truncate72_short [0x61, 0x62, 0x64] (by decide) (by decide)]
      decide)

/-- C4: hashing and verification apply the identical byte-level
truncation; the truncation of any over-long password is a valid string
of at most 72 encoded bytes (the cut's invalid trailing bytes are
dropped, nothing raises); and both the full password and its truncated
72-byte prefix verify against the digest of the full password. -/
theorem truncation_identical_and_prefix_verifies (p : PyStr)
    (hv : ValidPyStr p) (hlen : 72 < utf8ByteLen p) :
    truncate72Hash = truncate72Verify ∧
    ValidPyStr (truncate72Hash p) ∧
    utf8ByteLen (truncate72Hash p) ≤ 72 ∧
    verify_password p (get_password_hash p) = true ∧
    verify_password (truncate72Hash p) (get_password_hash p) = true := by
  refine ⟨rfl, decode_valid _, truncate72_byteLen_le p, ?_, ?_⟩
  · show pwdContextVerify (truncate72Verify p) (pwdContextHash (truncate72Hash p)) = true
    unfold pwdContextVerify pwdContextHash truncate72Verify truncate72Hash
    simp
  · show pwdContextVerify (truncate72Verify (truncate72Hash p))
      (pwdContextHash (truncate72Hash p)) = true
    unfold pwdContextVerify pwdContextHash
    have h : truncate72Verify (truncate72Hash p) = truncate72Hash p :=
      truncate72_idem p
    rw [h]
    simp

/-- Witness for C4 at a concrete 73-byte password (73 × 'a'). -/
theorem truncation_identical_and_prefix_verifies_witness :
    verify_password (List.replicate 73 0x61)
      (get_password_hash (List.replicate 73 0x61)) = true ∧
    verify_password (truncate72Hash (List.replicate 73 0x61))
      (get_password_hash (List.replicate 73 0x61)) = true :=
  ⟨(truncation_identical_and_prefix_verifies (List.replicate 73 0x61)
      (by decide) (by decide)).2.2.2.1,
    (truncation_identical_and_prefix_verifies (List.replicate 73 0x61)
      (by decide) (by decide)).2.2.2.2⟩

/-- C7: every failing verifier outcome (key-set fetch failure, no
matching key, invalid signature, failed claim check) makes the federated
login flow return an authentication error and leave the directory
untouched — no row is created, no tokens are issued, no claim is used. -/
theorem apple_verification_failure_propagates (db : DB)
    (login_req : AppleLoginRequest) (now : Int) (outcome : AppleVerifyOutcome)
    (h : outcome = AppleVerifyOutcome.fetchFailure ∨
      outcome = AppleVerifyOutcome.noMatchingKey ∨
      outcome = AppleVerifyOutcome.invalidSignature ∨
      outcome = AppleVerifyOutcome.claimCheckFailure) :
    ∃ e, login_with_apple db login_req outcome now =
      (AppleLoginResult.authError e, db) := by
  rcases h with rfl | rfl | rfl | rfl
  · exact ⟨IdentityVerificationError.keyFetchFailed, rfl⟩
  · exact ⟨IdentityVerificationError.noKeyMatched, rfl⟩
  · exact ⟨IdentityVerificationError.invalidSignature, rfl⟩
  · exact ⟨IdentityVerificationError.claimCheckFailed, rfl⟩

/-- Witness for C7 at a concrete request and a failing fetch. -/
theorem apple_verification_failure_propagates_witness :
    ∃ e, login_with_apple ⟨[], 0⟩ ⟨none, none, none⟩
      AppleVerifyOutcome.fetchFailure 0 = (AppleLoginResult.authError e, ⟨[], 0⟩) :=
  apple_verification_failure_propagates ⟨[], 0⟩ ⟨none, none, none⟩ 0
    AppleVerifyOutcome.fetchFailure (Or.inl rfl)

/-- C5 counterexample: the provider's email claim can be present but
empty, and then the code uses the client-supplied email — refuting "the
client email is used only when the provider claim is absent". -/
theorem apple_email_preference_counterexample :
    (some "" : Option String) ≠ none ∧
    ((login_with_apple ⟨[], 0⟩ ⟨some "client@x.com", none, none⟩
        (AppleVerifyOutcome.valid ⟨"apple-sub-1", some ""⟩) 0).2.users.map
      User.email) = [some "client@x.com"] := by
  constructor
  · simp
  · rfl

/-- C5 (amended): for a verified identity token, the flow looks up by
the verified subject and returns a token pair for the found row's id
with no write; when no row exists (and the new row collides with no
unique column) it creates exactly one row keyed by the subject, whose
email is the provider's claim when that claim is present and nonempty
and the client-supplied email when the claim is absent or empty, and
returns a token pair for the new row's id. -/
theorem login_with_apple_flow (db : DB) (login_req : AppleLoginRequest)
    (v : VerifiedAppleClaims) (now : Int) :
    (∀ u, get_by_apple_id db v.apple_user_id = some u →
      login_with_apple db login_req (AppleVerifyOutcome.valid v) now =
        (AppleLoginResult.success (create_access_token u.id now)
          (create_refresh_token u.id now), db)) ∧
    (get_by_apple_id db v.apple_user_id = none →
      violatesUnique db (appleUserRow db
        { apple_user_id := v.apple_user_id
          email := pyOrStr v.email login_req.email
          username := none
          first_name := login_req.first_name
          last_name := login_req.last_name }) = false →
      ∃ u db', login_with_apple db login_req (AppleVerifyOutcome.valid v) now =
          (AppleLoginResult.success (create_access_token u.id now)
            (create_refresh_token u.id now), db') ∧
        db'.users = db.users ++ [u] ∧
        u.apple_user_id = some v.apple_user_id ∧
        u.email = pyOrStr v.email login_req.email ∧
        (∀ s, v.email = some s → s ≠ "" → u.email = some s) ∧
        ((v.email = none ∨ v.email = some "") → u.email = login_req.email)) := by
  constructor
  · intro u hu
    simp [login_with_apple, verify_apple_token, hu]
  · intro hnone hnv
    set obj : UserCreateApple :=
      { apple_user_id := v.apple_user_id
        email := pyOrStr v.email login_req.email
        username := none
        first_name := login_req.first_name
        last_name := login_req.last_name } with hobj
    have hcreate : create db obj = Except.ok (appleUserRow db obj,
        ⟨db.users ++ [appleUserRow db obj], db.nextId + 1⟩) := by
      unfold create dbInsert
      simp [hnv, Except.map]
    have hflow : login_with_apple db login_req (AppleVerifyOutcome.valid v) now =
        (AppleLoginResult.success (create_access_token (appleUserRow db obj).id now)
          (create_refresh_token (appleUserRow db obj).id now),
          ⟨db.users ++ [appleUserRow db obj], db.nextId + 1⟩) := by
      simp only [login_with_apple, verify_apple_token, hnone, hcreate]
    refine ⟨appleUserRow db obj, ⟨db.users ++ [appleUserRow db obj], db.nextId + 1⟩,
      hflow, rfl, rfl, rfl, ?_, ?_⟩
    · intro s hs hsne
      show pyOrStr v.email login_req.email = some s
      rw [hs]
      simp [pyOrStr, hsne]
    · intro hcase
      show pyOrStr v.email login_req.email = login_req.email
      rcases hcase with h | h <;> rw [h] <;> simp [pyOrStr]

/-- Witness for C5 (amended) at a concrete empty directory and a
verified token with a nonempty provider email claim. -/
theorem login_with_apple_flow_witness :
    ∃ u db', login_with_apple ⟨[], 0⟩ ⟨some "client@x.com", none, none⟩
        (AppleVerifyOutcome.valid ⟨"apple-sub-1", some "a@apple.com"⟩) 0 =
        (AppleLoginResult.success (create_access_token u.id 0)
          (create_refresh_token u.id 0), db') ∧
      db'.users = ([] : List User) ++ [u] ∧
      u.apple_user_id = some "apple-sub-1" ∧
      u.email = pyOrStr (some "a@apple.com") (some "client@x.com") ∧
      (∀ s, (some "a@apple.com" : Option String) = some s → s ≠ "" → u.email = some s) ∧
      (((some "a@apple.com" : Option String) = none ∨
          (some "a@apple.com" : Option String) = some "") →
        u.email = some "client@x.com") :=
  (login_with_apple_flow ⟨[], 0⟩ ⟨some "client@x.com", none, none⟩
    ⟨"apple-sub-1", some "a@apple.com"⟩ 0).2 (by decide) (by decide)

/-! ## The federated first-login race -/

/-- A store whose rows produce no unique-constraint violation for a
candidate row keyed by a subject contains no row with that subject. -/
lemma get_by_apple_id_of_no_violation (db : DB) (inp : UserCreateApple)
    (h : violatesUnique db (appleUserRow db inp) = false) :
    get_by_apple_id db inp.apple_user_id = none := by
  unfold violatesUnique appleUserRow at h
  rw [List.any_eq_false] at h
  unfold get_by_apple_id
  rw [List.find?_eq_none]
  intro v hv
  have h2 := h v hv
  simp at h2
  simp [h2.1]

/-- An insert that violates nothing commits and appends the row. -/
lemma create_of_no_violation (db : DB) (inp : UserCreateApple)
    (h : violatesUnique db (appleUserRow db inp) = false) :
    create db inp = Except.ok (appleUserRow db inp,
      ⟨db.users ++ [appleUserRow db inp], db.nextId + 1⟩) := by
  unfold create dbInsert
  simp [h, Except.map]

/-- After the winner's row is committed, a lookup by the subject finds
it. -/
lemma get_by_apple_id_after_insert (db : DB) (w : User) (nid : Nat) (sub : String)
    (hnone : get_by_apple_id db sub = none)
    (hw : w.apple_user_id = some sub) :
    get_by_apple_id (⟨db.users ++ [w], nid⟩ : DB) sub = some w := by
  unfold get_by_apple_id at *
  rw [List.find?_append]
  simp only [hnone, Option.none_or]
  simp [List.find?, hw]

/-- After the winner's row is committed, a second insert with the same
subject hits the unique constraint. -/
lemma create_conflict_after_insert (db : DB) (w : User) (nid : Nat)
    (inp : UserCreateApple) (hw : w.apple_user_id = some inp.apple_user_id) :
    create (⟨db.users ++ [w], nid⟩ : DB) inp = Except.error DBError.integrityError := by
  have hviol : violatesUnique (⟨db.users ++ [w], nid⟩ : DB)
      (appleUserRow (⟨db.users ++ [w], nid⟩ : DB) inp) = true := by
    unfold violatesUnique
    simp only [List.any_append]
    apply Bool.or_eq_true_iff.mpr
    right
    simp [appleUserRow, hw]
  unfold create dbInsert
  simp [hviol, Except.map]

/-- C8 counterexample: under the interleaving in which both lookups run
before either insert, the losing request ends in an uncaught
`IntegrityError` (the handler has no conflict handling and does not
re-read), so it does not complete successfully — refuting "both requests
complete successfully". Exactly one row is created. -/
theorem federated_race_counterexample :
    (runRace ⟨"apple-sub-1", none, none, none, none⟩
      ⟨"apple-sub-1", none, none, none, none⟩
      [true, false, true, false] (raceInit, raceInit, ⟨[], 0⟩)).2.1.outcome =
      some RaceOutcome.integrityError ∧
    (runRace ⟨"apple-sub-1", none, none, none, none⟩
      ⟨"apple-sub-1", none, none, none, none⟩
      [true, false, true, false] (raceInit, raceInit, ⟨[], 0⟩)).2.2.users.length = 1 := by
  decide

/-- C8 (amended): for two concurrent federated logins with the same
verified subject and no pre-existing or otherwise conflicting row, every
interleaving of their store operations creates exactly one `User` row,
keyed by the subject; each request either succeeds with a token pair for
that one row's id or fails with the uncaught uniqueness-violation error;
and at least one request succeeds.  (The loser re-reads only when its
lookup ran after the winner's commit; a loser that already read "absent"
errors instead of re-reading.) -/
theorem federated_race_single_row (sched : List Bool) (db0 : DB)
    (inp1 inp2 : UserCreateApple)
    (hs : sched ∈ raceSchedules)
    (hsub : inp2.apple_user_id = inp1.apple_user_id)
    (h1 : violatesUnique db0 (appleUserRow db0 inp1) = false)
    (h2 : violatesUnique db0 (appleUserRow db0 inp2) = false) :
    ∃ w, (runRace inp1 inp2 sched (raceInit, raceInit, db0)).2.2.users =
        db0.users ++ [w] ∧
      w.apple_user_id = some inp1.apple_user_id ∧
      ((runRace inp1 inp2 sched (raceInit, raceInit, db0)).1.outcome =
          some (RaceOutcome.success w.id) ∨
        (runRace inp1 inp2 sched (raceInit, raceInit, db0)).1.outcome =
          some RaceOutcome.integrityError) ∧
      ((runRace inp1 inp2 sched (raceInit, raceInit, db0)).2.1.outcome =
          some (RaceOutcome.success w.id) ∨
        (runRace inp1 inp2 sched (raceInit, raceInit, db0)).2.1.outcome =
          some RaceOutcome.integrityError) ∧
      ((runRace inp1 inp2 sched (raceInit, raceInit, db0)).1.outcome =
          some (RaceOutcome.success w.id) ∨
        (runRace inp1 inp2 sched (raceInit, raceInit, db0)).2.1.outcome =
          some (RaceOutcome.success w.id)) := by
  have hA1 : get_by_apple_id db0 inp1.apple_user_id = none :=
    get_by_apple_id_of_no_violation db0 inp1 h1
  have hA2 : get_by_apple_id db0 inp2.apple_user_id = none :=
    get_by_apple_id_of_no_violation db0 inp2 h2
  have hw1 : (appleUserRow db0 inp1).apple_user_id = some inp2.apple_user_id := by
    simp [appleUserRow, hsub]
  have hw2 : (appleUserRow db0 inp2).apple_user_id = some inp1.apple_user_id := by
    simp [appleUserRow, hsub]
  have hC1 := create_of_no_violation db0 inp1 h1
  have hC2 := create_of_no_violation db0 inp2 h2
  have hD2 := create_conflict_after_insert db0 (appleUserRow db0 inp1)
    (db0.nextId + 1) inp2 hw1
  have hD1 := create_conflict_after_insert db0 (appleUserRow db0 inp2)
    (db0.nextId + 1) inp1 hw2
  have hL2 := get_by_apple_id_after_insert db0 (appleUserRow db0 inp1)
    (db0.nextId + 1) inp2.apple_user_id hA2 hw1
  have hL1 := get_by_apple_id_after_insert db0 (appleUserRow db0 inp2)
    (db0.nextId + 1) inp1.apple_user_id hA1 hw2
  simp only [raceSchedules, List.mem_cons, List.not_mem_nil, or_false] at hs
  rcases hs with rfl | rfl | rfl | rfl | rfl | rfl
  · refine ⟨appleUserRow db0 inp1, ?_, by simp [appleUserRow], ?_, ?_, ?_⟩ <;>
      simp [runRace, raceStepReq, raceInit, hA1, hA2, hC1, hC2, hD1, hD2, hL1, hL2]
  · refine ⟨appleUserRow db0 inp1, ?_, by simp [appleUserRow], ?_, ?_, ?_⟩ <;>
      simp [runRace, raceStepReq, raceInit, hA1, hA2, hC1, hC2, hD1, hD2, hL1, hL2]
  · refine ⟨appleUserRow db0 inp2, ?_, by simp [appleUserRow, hsub], ?_, ?_, ?_⟩ <;>
      simp [runRace, raceStepReq, raceInit, hA1, hA2, hC1, hC2, hD1, hD2, hL1, hL2]
  · refine ⟨appleUserRow db0 inp1, ?_, by simp [appleUserRow], ?_, ?_, ?_⟩ <;>
      simp [runRace, raceStepReq, raceInit, hA1, hA2, hC1, hC2, hD1, hD2, hL1, hL2]
  · refine ⟨appleUserRow db0 inp2, ?_, by simp [appleUserRow, hsub], ?_, ?_, ?_⟩ <;>
      simp [runRace, raceStepReq, raceInit, hA1, hA2, hC1, hC2, hD1, hD2, hL1, hL2]
  · refine ⟨appleUserRow db0 inp2, ?_, by simp [appleUserRow, hsub], ?_, ?_, ?_⟩ <;>
      simp [runRace, raceStepReq, raceInit, hA1, hA2, hC1, hC2, hD1, hD2, hL1, hL2]

/-- Witness for C8 (amended) at a concrete empty store and both-lookups-
first interleaving. -/
theorem federated_race_single_row_witness :
    ∃ w, (runRace ⟨"apple-sub-1", none, none, none, none⟩
        ⟨"apple-sub-1", none, none, none, none⟩
        [true, false, true, false]
        (raceInit, raceInit, ⟨[], 0⟩)).2.2.users = ([] : List User) ++ [w] ∧
      w.apple_user_id = some "apple-sub-1" ∧
      ((runRace ⟨"apple-sub-1", none, none, none, none⟩
          ⟨"apple-sub-1", none, none, none, none⟩
          [true, false, true, false] (raceInit, raceInit, ⟨[], 0⟩)).1.outcome =
          some (RaceOutcome.success w.id) ∨
        (runRace ⟨"apple-sub-1", none, none, none, none⟩
          ⟨"apple-sub-1", none, none, none, none⟩
          [true, false, true, false] (raceInit, raceInit, ⟨[], 0⟩)).1.outcome =
          some RaceOutcome.integrityError) ∧
      ((runRace ⟨"apple-sub-1", none, none, none, none⟩
          ⟨"apple-sub-1", none, none, none, none⟩
          [true, false, true, false] (raceInit, raceInit, ⟨[], 0⟩)).2.1.outcome =
          some (RaceOutcome.success w.id) ∨
        (runRace ⟨"apple-sub-1", none, none, none, none⟩
          ⟨"apple-sub-1", none, none, none, none⟩
          [true, false, true, false] (raceInit, raceInit, ⟨[], 0⟩)).2.1.outcome =
          some RaceOutcome.integrityError) ∧
      ((runRace ⟨"apple-sub-1", none, none, none, none⟩
          ⟨"apple-sub-1", none, none, none, none⟩
          [true, false, true, false] (raceInit, raceInit, ⟨[], 0⟩)).1.outcome =
          some (RaceOutcome.success w.id) ∨
        (runRace ⟨"apple-sub-1", none, none, none, none⟩
          ⟨"apple-sub-1", none, none, none, none⟩
          [true, false, true, false] (raceInit, raceInit, ⟨[], 0⟩)).2.1.outcome =
          some (RaceOutcome.success w.id)) :=
  federated_race_single_row [true, false, true, false] ⟨[], 0⟩
    ⟨"apple-sub-1", none, none, none, none⟩ ⟨"apple-sub-1", none, none, none, none⟩
    (by decide) rfl (by decide) (by decide)

end PulseTempo
